import Mathlib

/-!
# Verification of the SDBlockDevice SPI driver (src/SDBlockDevice.cpp)

A shallow embedding of the driver's state machine.  The card, the SPI bus
and the millisecond timer are external to the driver; they are modelled as
oracles:

* `CmdOracle` scripts one `_cmd` invocation: the R1 byte produced by each
  `_cmd_spi` attempt of the retry loop (lines 690-703) and the extra bytes
  clocked in afterwards for R3/R7/R2 payloads (lines 740-765).
* `SDEnv` scripts one public API call: a stream of `CmdOracle`s consumed in
  the order the `_cmd` calls are made (index `i` is threaded through), the
  outcome of each `_read` / `_read_bytes` data transfer, the data-response
  byte returned by each `_write`, and the number of ACMD41 iterations the
  5000 ms deadline allows (the timer is external, so the number of polls a
  deadline permits is an environment parameter).

`_select` / `_deselect`, the pre-command `_wait_ready` (line 685), and the
R1b busy drain for CMD12/CMD38 (line 755) only gate debug prints or consume
bus bytes; they change no driver state and no return value, so they do not
appear in the state model.  Machine integers are modelled as `ℕ` with an
explicit `% 2 ^ 32` exactly where the C `uint32_t` arithmetic can wrap.
-/

/-! ## Constants (lines 155-238 of SDBlockDevice.cpp, mbed BlockDevice codes) -/

def BD_ERROR_OK : Int := 0
def BD_ERROR_DEVICE_ERROR : Int := -4001
def SD_BLOCK_DEVICE_ERROR_UNSUPPORTED : Int := -5002
def SD_BLOCK_DEVICE_ERROR_PARAMETER : Int := -5003
def SD_BLOCK_DEVICE_ERROR_NO_INIT : Int := -5004
def SD_BLOCK_DEVICE_ERROR_NO_DEVICE : Int := -5005
def SD_BLOCK_DEVICE_ERROR_UNUSABLE : Int := -5007
def SD_BLOCK_DEVICE_ERROR_NO_RESPONSE : Int := -5008
def SD_BLOCK_DEVICE_ERROR_CRC : Int := -5009
def SD_BLOCK_DEVICE_ERROR_ERASE : Int := -5010
def SD_BLOCK_DEVICE_ERROR_WRITE : Int := -5011

def BLOCK_SIZE_HC : ℕ := 512

def R1_NO_RESPONSE : ℕ := 0xFF
def R1_RESPONSE_RECV : ℕ := 0x80
def R1_IDLE_STATE : ℕ := 1
def R1_ERASE_RESET : ℕ := 2
def R1_ILLEGAL_COMMAND : ℕ := 4
def R1_COM_CRC_ERROR : ℕ := 8
def R1_ERASE_SEQUENCE_ERROR : ℕ := 16
def R1_ADDRESS_ERROR : ℕ := 32
def R1_PARAMETER_ERROR : ℕ := 64

def SDCARD_NONE : ℕ := 0
def SDCARD_V1 : ℕ := 1
def SDCARD_V2 : ℕ := 2
def SDCARD_V2HC : ℕ := 3
def CARD_UNKNOWN : ℕ := 4

def OCR_HCS_CCS : ℕ := 0x40000000
def OCR_3_3V : ℕ := 0x100000

def CMD8_PATTERN : ℕ := 0xAA

def SPI_DATA_RESPONSE_MASK : ℕ := 0x1F
def SPI_DATA_ACCEPTED : ℕ := 0x05
def SPI_DATA_CRC_ERROR : ℕ := 0x0B
def SPI_DATA_WRITE_ERROR : ℕ := 0x0D

/- Command opcodes (enum cmdSupported, SDBlockDevice.h lines 147-182). -/
def CMD0_GO_IDLE_STATE : ℕ := 0
def CMD8_SEND_IF_COND : ℕ := 8
def CMD9_SEND_CSD : ℕ := 9
def CMD12_STOP_TRANSMISSION : ℕ := 12
def CMD13_SEND_STATUS : ℕ := 13
def CMD16_SET_BLOCKLEN : ℕ := 16
def CMD17_READ_SINGLE_BLOCK : ℕ := 17
def CMD18_READ_MULTIPLE_BLOCK : ℕ := 18
def CMD24_WRITE_BLOCK : ℕ := 24
def CMD25_WRITE_MULTIPLE_BLOCK : ℕ := 25
def CMD32_ERASE_WR_BLK_START_ADDR : ℕ := 32
def CMD33_ERASE_WR_BLK_END_ADDR : ℕ := 33
def CMD38_ERASE : ℕ := 38
def CMD55_APP_CMD : ℕ := 55
def CMD58_READ_OCR : ℕ := 58
def CMD59_CRC_ON_OFF : ℕ := 59
def ACMD22_SEND_NUM_WR_BLOCKS : ℕ := 22
def ACMD23_SET_WR_BLK_ERASE_COUNT : ℕ := 23
def ACMD41_SD_SEND_OP_COND : ℕ := 41

/-! ## Device state

Mirrors the private members of class SDBlockDevice (header lines 184-233).
`spi_hz` records the clock most recently applied to the SPI transceiver
(`_spi.frequency(...)`), so that theorems can talk about the clock the
transceiver observes.  In the C++ constructor `_sectors`, `_erase_size` and
`_dbg` are left indeterminate; the start states below pick arbitrary values
for them. -/

structure SDState where
  card_type : ℕ
  is_initialized : Bool
  sectors : ℕ
  erase_size : ℕ
  block_size : ℕ
  init_sck : ℕ
  transfer_sck : ℕ
  dbg : Bool
  spi_hz : ℕ
deriving DecidableEq, Repr

/-- Constructor (lines 240-252): `card_type = None`, 100 kHz init clock,
`transfer_sck = hz`, block size 512.  `sectors0`, `erase0`, `dbg0` stand for
the indeterminate values of the members the constructor does not set. -/
def mkSDBlockDevice (hz sectors0 erase0 : ℕ) (dbg0 : Bool) : SDState :=
  { card_type := SDCARD_NONE
    is_initialized := false
    sectors := sectors0
    erase_size := erase0
    block_size := BLOCK_SIZE_HC
    init_sck := 100000
    transfer_sck := hz % 2 ^ 32   -- uint64 ctor argument stored in uint32 member
    dbg := dbg0
    spi_hz := 0 }

/-! ## Byte-level model of `_cmd_spi` (lines 632-676)

`rx n` is the byte the card drives out on the n-th full-duplex exchange
after the 6 packet bytes have been sent. -/

/-- Line 175: `SPI_CMD(x) = 0x40 | (x & 0x3f)`. -/
def SPI_CMD_byte (x : ℕ) : ℕ := 0x40 ||| (x &&& 0x3F)

/-- Lines 644-654: fixed CRC trailer byte of the command packet. -/
def crcTrailer (cmd : ℕ) : ℕ :=
  if cmd = CMD0_GO_IDLE_STATE then 0x95
  else if cmd = CMD8_SEND_IF_COND then 0x87
  else 0xFF

/-- Lines 637-654: the 6-byte command packet.  Each `char` assignment keeps
only the low 8 bits of the shifted argument. -/
def cmdPacket (cmd arg : ℕ) : List ℕ :=
  [SPI_CMD_byte cmd,
   (arg >>> 24) &&& 0xFF,
   (arg >>> 16) &&& 0xFF,
   (arg >>> 8) &&& 0xFF,
   arg &&& 0xFF,
   crcTrailer cmd]

/-- Lines 668-674: poll for R1 — up to 16 exchanges, stop at the first byte
whose MSB is clear; if none arrives, the last byte read is kept.  `fuel` is
the number of further exchanges still allowed (15 at the first read). -/
def r1Poll (rx : ℕ → ℕ) (fuel i : ℕ) : ℕ :=
  let response := rx i
  match fuel with
  | 0 => response
  | f + 1 =>
    if response &&& R1_RESPONSE_RECV = 0 then response else r1Poll rx f (i + 1)

/-- Lines 661-675: the R1 byte `_cmd_spi` returns.  After CMD12 one stuff
byte is exchanged and discarded before the poll begins (lines 663-665). -/
def cmdSpiAdopted (cmd : ℕ) (rx : ℕ → ℕ) : ℕ :=
  if cmd = CMD12_STOP_TRANSMISSION then r1Poll (fun n => rx (n + 1)) 15 0
  else r1Poll rx 15 0

/-- The byte stream the R1 poll of `_cmd_spi` actually scans: for CMD12 the
stuff byte shifts the poll by one exchange. -/
def pollStream (cmd : ℕ) (rx : ℕ → ℕ) : ℕ → ℕ :=
  if cmd = CMD12_STOP_TRANSMISSION then fun n => rx (n + 1) else rx

/-- Modelled from the claim's words (C8): the first of at most 16
subsequently exchanged bytes whose most-significant bit is 0. -/
def firstMsbClear (rx : ℕ → ℕ) : Option ℕ :=
  ((List.range 16).find? fun i => rx i &&& 0x80 == 0).map rx

/-! ## Command-level model of `_cmd` (lines 678-775) -/

/-- One `_cmd` invocation's scripted card behaviour: `attempts k` is the R1
byte the k-th `_cmd_spi` attempt of the retry loop adopts, `extra k` the
k-th additional byte clocked in for an R3/R7/R2 payload.  (For an ACMD the
CMD55 prefix response is discarded by the code, lines 692-694, so it does
not appear.) -/
structure CmdOracle where
  attempts : ℕ → ℕ
  extra : ℕ → ℕ

/-- Lines 690-703: retry `_cmd_spi` up to 3 times while the response is
0xFF; the third response is kept even if it is 0xFF. -/
def cmdAttempts (o : CmdOracle) : ℕ :=
  if o.attempts 0 ≠ R1_NO_RESPONSE then o.attempts 0
  else if o.attempts 1 ≠ R1_NO_RESPONSE then o.attempts 1
  else o.attempts 2

/-- Lines 746-749: the 32-bit R3/R7 payload, four bytes MSB first. -/
def payloadOf (o : CmdOracle) : ℕ :=
  (o.extra 0 <<< 24) ||| (o.extra 1 <<< 16) ||| (o.extra 2 <<< 8) ||| o.extra 3

/-- Result of one `_cmd` call: its return status, the final value written
through the `resp` out-parameter, and the (possibly updated) card type. -/
structure CmdResult where
  status : Int
  resp : ℕ
  card_type : ℕ
deriving DecidableEq, Repr

/-- Lines 678-775, `_cmd`.  State effects: `_card_type` becomes `Unknown`
on an illegal-command R1 for CMD8 (lines 721-728) and `V2` when CMD8's R7
is read (lines 741-744).  The switch at lines 740-765 matches on the
numeric opcode, so plain CMD13 also hits the `ACMD13_SD_STATUS` (= 13)
case and replaces `resp` with one extra byte. -/
def cmdRun (ct cmd : ℕ) (_isAcmd : Bool) (o : CmdOracle) : CmdResult :=
  let response := cmdAttempts o
  if response = R1_NO_RESPONSE then
    { status := SD_BLOCK_DEVICE_ERROR_NO_DEVICE, resp := response, card_type := ct }
  else if response &&& R1_COM_CRC_ERROR ≠ 0 then
    { status := SD_BLOCK_DEVICE_ERROR_CRC, resp := response, card_type := ct }
  else if response &&& R1_ILLEGAL_COMMAND ≠ 0 then
    { status := SD_BLOCK_DEVICE_ERROR_UNSUPPORTED, resp := response,
      card_type := if cmd = CMD8_SEND_IF_COND then CARD_UNKNOWN else ct }
  else
    let status : Int :=
      if response &&& R1_ERASE_RESET ≠ 0 ∨ response &&& R1_ERASE_SEQUENCE_ERROR ≠ 0 then
        SD_BLOCK_DEVICE_ERROR_ERASE
      else if response &&& R1_ADDRESS_ERROR ≠ 0 ∨ response &&& R1_PARAMETER_ERROR ≠ 0 then
        SD_BLOCK_DEVICE_ERROR_PARAMETER
      else BD_ERROR_OK
    if cmd = CMD8_SEND_IF_COND then
      { status := status, resp := payloadOf o, card_type := SDCARD_V2 }
    else if cmd = CMD58_READ_OCR then
      { status := status, resp := payloadOf o, card_type := ct }
    else if cmd = CMD12_STOP_TRANSMISSION ∨ cmd = CMD38_ERASE then
      -- R1b: _wait_ready only consumes bus bytes
      { status := status, resp := response, card_type := ct }
    else if cmd = CMD13_SEND_STATUS then
      { status := status, resp := o.extra 0, card_type := ct }
    else
      { status := status, resp := response, card_type := ct }

/-- Lines 777-796, `_cmd8`: send CMD8 with argument 0x1AA; on success with
a V2 card, a payload whose low 12 bits differ from 0x1AA makes the card
unusable.  Returns (status, new card type). -/
def cmd8Run (ct : ℕ) (o : CmdOracle) : Int × ℕ :=
  let arg : ℕ := (0x1 <<< 8) ||| CMD8_PATTERN
  let r := cmdRun ct CMD8_SEND_IF_COND false o
  if r.status = BD_ERROR_OK ∧ r.card_type = SDCARD_V2 then
    if r.resp &&& 0xFFF ≠ arg then (SD_BLOCK_DEVICE_ERROR_UNUSABLE, CARD_UNKNOWN)
    else (r.status, r.card_type)
  else (r.status, r.card_type)

/-- Lines 806-811: the CMD0 retry loop — up to 5 attempts, stopping as soon
as the response is exactly 0x01.  `fuel` is the number of retries left. -/
def goIdleLoop (ct : ℕ) (env : ℕ → CmdOracle) (fuel i : ℕ) : ℕ × ℕ :=
  let r := (cmdRun ct CMD0_GO_IDLE_STATE false (env i)).resp
  match fuel with
  | 0 => (r, i + 1)
  | f + 1 => if r = R1_IDLE_STATE then (r, i + 1) else goIdleLoop ct env f (i + 1)

/-- Lines 798-813, `_go_idle_state` (SD_CMD0_GO_IDLE_STATE_RETRIES = 5). -/
def goIdleState (ct : ℕ) (env : ℕ → CmdOracle) (i : ℕ) : ℕ × ℕ :=
  goIdleLoop ct env 4 i

/-- Lines 308-312: the ACMD41 do/while loop.  `budget` is the number of
times the `read_ms() < 5000` check still passes; the loop re-issues the
command while the response has the idle bit and the deadline has not fired.
Returns (status of the last `_cmd`, its response, next oracle index). -/
def acmd41Loop (ct : ℕ) (env : ℕ → CmdOracle) (_arg budget i : ℕ) : Int × ℕ × ℕ :=
  let r := cmdRun ct ACMD41_SD_SEND_OP_COND true (env i)
  if r.resp &&& R1_IDLE_STATE ≠ 0 then
    match budget with
    | 0 => (r.status, r.resp, i + 1)
    | b + 1 => acmd41Loop ct env _arg b (i + 1)
  else (r.status, r.resp, i + 1)

/-- Lines 261-337, `_initialise_card`.  Line 264 resets `_dbg` to the
compile-time default (`SD_DBG ? SD_CMD_TRACE : 0` with `SD_DBG = 0`);
line 269 (`_spi_init`) applies the 100 kHz init clock.  Returns
(status, new state, next oracle index). -/
def initialiseCard (s0 : SDState) (env : ℕ → CmdOracle) (budget : ℕ) : Int × SDState × ℕ :=
  let s := { s0 with dbg := false, spi_hz := s0.init_sck }
  let gi := goIdleState s.card_type env 0
  if gi.1 ≠ R1_IDLE_STATE then (SD_BLOCK_DEVICE_ERROR_NO_DEVICE, s, gi.2)
  else
    let c8 := cmd8Run s.card_type (env gi.2)
    let i1 := gi.2 + 1
    let s1 := { s with card_type := c8.2 }
    if c8.1 ≠ BD_ERROR_OK then (c8.1, s1, i1)
    else
      -- line 283: CMD59_CRC_ON_OFF; its status is overwritten at line 286
      let _r59 := cmdRun s1.card_type CMD59_CRC_ON_OFF false (env i1)
      let i2 := i1 + 1
      let r58 := cmdRun s1.card_type CMD58_READ_OCR false (env i2)
      let i3 := i2 + 1
      if r58.status ≠ BD_ERROR_OK then (r58.status, s1, i3)
      else if r58.resp &&& OCR_3_3V = 0 then
        (SD_BLOCK_DEVICE_ERROR_UNUSABLE, { s1 with card_type := CARD_UNKNOWN }, i3)
      else
        let arg := if s1.card_type = SDCARD_V2 then OCR_HCS_CCS else 0
        let a := acmd41Loop s1.card_type env arg budget i3
        if a.1 ≠ BD_ERROR_OK ∨ a.2.1 ≠ 0 then
          -- lines 315-319: timeout/failure path; the LAST command's status
          -- is returned (0 when the card kept answering 0x01)
          (a.1, { s1 with card_type := CARD_UNKNOWN }, a.2.2)
        else if s1.card_type = SDCARD_V2 then
          let r58b := cmdRun s1.card_type CMD58_READ_OCR false (env a.2.2)
          if r58b.status = BD_ERROR_OK ∧ r58b.resp &&& OCR_HCS_CCS ≠ 0 then
            (r58b.status, { s1 with card_type := SDCARD_V2HC }, a.2.2 + 1)
          else (r58b.status, s1, a.2.2 + 1)
        else (a.1, { s1 with card_type := SDCARD_V1 }, a.2.2)

/-! ## Capacity decoder (lines 893-966) -/

/-- Lines 893-904, `ext_bits`: assemble bits `[msb:lsb]` of the 128-bit CSD
register LSB-first; `data[15]` holds bits 7..0. -/
def ext_bits (data : List ℕ) (msb lsb : ℕ) : ℕ :=
  (List.range (1 + msb - lsb)).foldl
    (fun bits i =>
      let position := lsb + i
      let byte := 15 - position / 8
      let bit := position % 8
      let value := (data.getD byte 0 >>> bit) &&& 1
      bits ||| (value <<< i))
    0

/-- Lines 923-964: decode the CSD.  Returns (blocks, state with updated
`erase_size`).  In the v1 branch `capacity = blocknr * block_len` is a
`uint32_t * uint32_t` product assigned to a 64-bit variable, so it wraps at
2^32 first; in the v2 branch `(hc_c_size + 1) << 10` likewise. -/
def sdSectorsParse (s : SDState) (csd : List ℕ) : ℕ × SDState :=
  let csd_structure := ext_bits csd 127 126
  if csd_structure = 0 then
    let c_size := ext_bits csd 73 62
    let c_size_mult := ext_bits csd 49 47
    let read_bl_len := ext_bits csd 83 80
    let block_len := 1 <<< read_bl_len
    let mult := 1 <<< (c_size_mult + 2)
    let blocknr := (c_size + 1) * mult
    let capacity := (blocknr * block_len) % 2 ^ 32
    let blocks := capacity / s.block_size
    let s2 :=
      if ext_bits csd 46 46 ≠ 0 then { s with erase_size := BLOCK_SIZE_HC }
      else
        { s with erase_size :=
            if ext_bits csd 45 39 < s.block_size then s.block_size else ext_bits csd 45 39 }
    (blocks, s2)
  else if csd_structure = 1 then
    let hc_c_size := ext_bits csd 69 48
    (((hc_c_size + 1) <<< 10) % 2 ^ 32, { s with erase_size := BLOCK_SIZE_HC })
  else (0, s)

/-! ## Per-call environment -/

/-- Scripted card behaviour for one public API call.  `cmds i` is consumed
by the i-th `_cmd` invocation; `csdRead` is the outcome of the
`_read_bytes(csd, 16)` call (none = start-token timeout); `reads i` is the
success of the i-th `_read` data-block transfer; `writes i` the raw
data-response byte of the i-th `_write`; `acmd41Budget` the iterations the
ACMD41 deadline still allows. -/
structure SDEnv where
  cmds : ℕ → CmdOracle
  csdRead : Option (List ℕ)
  reads : ℕ → Bool
  writes : ℕ → ℕ
  acmd41Budget : ℕ

/-- Lines 906-921, `_sd_sectors`: CMD9 then a 16-byte CSD read; 0 blocks on
any failure.  The function's C return type is `uint32_t`; the parse result
already fits (both branches are reduced mod 2^32). -/
def sdSectorsRun (s : SDState) (env : SDEnv) (i : ℕ) : ℕ × SDState × ℕ :=
  let r9 := cmdRun s.card_type CMD9_SEND_CSD false (env.cmds i)
  if r9.status ≠ 0 then (0, s, i + 1)
  else
    match env.csdRead with
    | none => (0, s, i + 1)
    | some csd =>
      let p := sdSectorsParse s csd
      (p.1, p.2, i + 1)

/-- Lines 619-630, `_freq`: apply `_transfer_sck` if ≤ 25 MHz, else clamp
it to 25 MHz, apply that, and return `-EINVAL` (= -22). -/
def freqRun (s : SDState) : Int × SDState :=
  if s.transfer_sck ≤ 25000000 then (0, { s with spi_hz := s.transfer_sck })
  else (-22, { s with transfer_sck := 25000000, spi_hz := 25000000 })

/-- Lines 609-616, `frequency`: the `uint64_t` argument is stored in the
`uint32_t` member `_transfer_sck` (truncating mod 2^32), then `_freq` runs. -/
def frequencyRun (s : SDState) (freq : ℕ) : Int × SDState :=
  freqRun { s with transfer_sck := freq % 2 ^ 32 }

/-- Lines 604-607, `debug`: set the runtime debug flag, nothing else. -/
def debugRun (s : SDState) (dbg : Bool) : SDState :=
  { s with dbg := dbg }

/-- Lines 340-373, `init`.  `_is_initialized` is set from
`_initialise_card`'s status BEFORE the `_sd_sectors` / CMD16 / `_freq`
steps, and is not cleared when those steps fail. -/
def initRun (s0 : SDState) (env : SDEnv) : Int × SDState :=
  let ic := initialiseCard s0 env.cmds env.acmd41Budget
  let s := { ic.2.1 with is_initialized := ic.1 = BD_ERROR_OK }
  if ic.1 ≠ BD_ERROR_OK then (ic.1, s)
  else
    let ss := sdSectorsRun s env ic.2.2
    let s2 := { ss.2.1 with sectors := ss.1 }
    if ss.1 = 0 then (BD_ERROR_DEVICE_ERROR, s2)
    else
      let r16 := cmdRun s2.card_type CMD16_SET_BLOCKLEN false (env.cmds ss.2.2)
      if r16.status ≠ 0 then (BD_ERROR_DEVICE_ERROR, s2)
      else
        let f := freqRun s2
        if f.1 ≠ 0 then (f.1, f.2) else (BD_ERROR_OK, f.2)

/-- Lines 375-381, `deinit`: clear the flag, return 0. -/
def deinitRun (s : SDState) : Int × SDState :=
  (0, { s with is_initialized := false })

/-! ## Block I/O (lines 384-576)

The `is_valid_read` / `is_valid_program` / `is_valid_erase` guards live in
the mbed-os `BlockDevice` base class, outside this repository; their
outcome is passed in as the `valid` argument. -/

/-- Result of the command / first-block retry loop of `read`
(lines 500-521). -/
structure ReadLoop1 where
  status : Int
  blockCnt : ℕ
  i : ℕ
  early : Bool
deriving DecidableEq, Repr

/-- Lines 500-521: issue CMD17/CMD18; a command error returns from `read`
at once (`early`); if the first block's start token never arrives the whole
command is retried, at most 3 attempts in total.  `fuel` is the number of
retries left. -/
def readRetryLoop (ct : ℕ) (env : SDEnv) (blockCnt fuel i : ℕ) : ReadLoop1 :=
  let c := cmdRun ct
    (if blockCnt > 1 then CMD18_READ_MULTIPLE_BLOCK else CMD17_READ_SINGLE_BLOCK)
    false (env.cmds i)
  if c.status ≠ BD_ERROR_OK then ⟨c.status, blockCnt, i + 1, true⟩
  else if env.reads i then ⟨BD_ERROR_OK, blockCnt - 1, i + 1, false⟩
  else
    match fuel with
    | 0 => ⟨BD_ERROR_OK, blockCnt, i + 1, false⟩
    | f + 1 => readRetryLoop ct env blockCnt f (i + 1)

/-- Lines 524-531: clock in the remaining blocks; the first failed `_read`
records NoResponse and leaves the loop. -/
def readBlocksLoop (reads : ℕ → Bool) (cnt i : ℕ) : Int × ℕ :=
  match cnt with
  | 0 => (BD_ERROR_OK, i)
  | c + 1 =>
    if reads i then readBlocksLoop reads c (i + 1)
    else (SD_BLOCK_DEVICE_ERROR_NO_RESPONSE, i + 1)

/-- Lines 478-539, `read`.  Note line 487: the uninitialized check returns
ERROR_PARAMETER (-5003), not ERROR_NO_INIT; and lines 533-536: for a
multi-block transfer the CMD12 status unconditionally replaces the loop
status. -/
def readRun (s : SDState) (env : SDEnv) (valid : Bool) (addr size : ℕ) : Int :=
  if !valid then SD_BLOCK_DEVICE_ERROR_PARAMETER
  else if !s.is_initialized then SD_BLOCK_DEVICE_ERROR_PARAMETER
  else
    let blockCnt := size / s.block_size
    let _a := if s.card_type = SDCARD_V2HC then addr / s.block_size else addr
    let rl := readRetryLoop s.card_type env blockCnt 2 0
    if rl.early then rl.status
    else
      let bl := readBlocksLoop env.reads rl.blockCnt rl.i
      if size > s.block_size then
        (cmdRun s.card_type CMD12_STOP_TRANSMISSION false (env.cmds bl.2)).status
      else bl.1

/-- Lines 439-446: the multi-block write do/while loop; returns the last
data-response token (`_write`'s result, already masked to 5 bits).  Never
touches `status`. -/
def multiWriteLoop (writes : ℕ → ℕ) (k cnt : ℕ) : ℕ :=
  let response := writes k &&& SPI_DATA_RESPONSE_MASK
  if response ≠ SPI_DATA_ACCEPTED then response
  else
    match cnt with
    | 0 => response
    | 1 => response
    | c + 2 => multiWriteLoop writes (k + 1) (c + 1)

/-- Lines 384-476, `program`.  Single block: CMD24, `_write` (whose result
is masked with SPI_DATA_RESPONSE_MASK, line 890), the Write error recorded
at line 422 is overwritten by the CMD13 status at line 428.  Multi block:
ACMD23 (status discarded), CMD25, the write loop, stop-tran token and the
ACMD22 diagnostic path change no status, so the CMD25 status (0 here) is
returned. -/
def programRun (s : SDState) (env : SDEnv) (valid : Bool) (addr size : ℕ) : Int :=
  if !valid then SD_BLOCK_DEVICE_ERROR_PARAMETER
  else if !s.is_initialized then SD_BLOCK_DEVICE_ERROR_NO_INIT
  else
    let blockCnt := size / s.block_size
    let _a := if s.card_type = SDCARD_V2HC then addr / s.block_size else addr
    if blockCnt = 1 then
      let r24 := cmdRun s.card_type CMD24_WRITE_BLOCK false (env.cmds 0)
      if r24.status ≠ BD_ERROR_OK then r24.status
      else
        let response := env.writes 0 &&& SPI_DATA_RESPONSE_MASK
        let _status : Int :=
          if response = SPI_DATA_CRC_ERROR ∨ response = SPI_DATA_WRITE_ERROR then
            SD_BLOCK_DEVICE_ERROR_WRITE
          else BD_ERROR_OK
        (cmdRun s.card_type CMD13_SEND_STATUS false (env.cmds 1)).status
    else
      let _r23 := cmdRun s.card_type ACMD23_SET_WR_BLK_ERASE_COUNT true (env.cmds 0)
      let r25 := cmdRun s.card_type CMD25_WRITE_MULTIPLE_BLOCK false (env.cmds 1)
      if r25.status ≠ BD_ERROR_OK then r25.status
      else
        let _resp := multiWriteLoop env.writes 0 blockCnt
        r25.status

/-- Lines 541-576, `erase`: CMD32, CMD33, CMD38 in sequence, first error
wins; addresses (and the decremented size) are scaled for HC cards. -/
def eraseRun (s : SDState) (env : SDEnv) (valid : Bool) (addr size : ℕ) : Int :=
  if !valid then SD_BLOCK_DEVICE_ERROR_PARAMETER
  else if !s.is_initialized then SD_BLOCK_DEVICE_ERROR_NO_INIT
  else
    let sz := size - s.block_size
    let _a := if s.card_type = SDCARD_V2HC then addr / s.block_size else addr
    let _sz := if s.card_type = SDCARD_V2HC then sz / s.block_size else sz
    let r32 := cmdRun s.card_type CMD32_ERASE_WR_BLK_START_ADDR false (env.cmds 0)
    if r32.status ≠ BD_ERROR_OK then r32.status
    else
      let r33 := cmdRun s.card_type CMD33_ERASE_WR_BLK_END_ADDR false (env.cmds 1)
      if r33.status ≠ BD_ERROR_OK then r33.status
      else (cmdRun s.card_type CMD38_ERASE false (env.cmds 2)).status

/-! ## Concrete scripted runs -/

/-- A command oracle that answers the same R1 byte on every attempt and 0
for every payload byte. -/
def oR1 (r1 : ℕ) : CmdOracle :=
  { attempts := fun _ => r1, extra := fun _ => 0 }

/-- A command oracle with an R1 byte and a 4-byte R3/R7 payload. -/
def oResp (r1 b0 b1 b2 b3 : ℕ) : CmdOracle :=
  { attempts := fun _ => r1
    extra := fun i => if i = 0 then b0 else if i = 1 then b1 else if i = 2 then b2 else b3 }

/-- An environment in which the card never answers anything. -/
def envNone : SDEnv :=
  { cmds := fun _ => oR1 0xFF
    csdRead := none
    reads := fun _ => false
    writes := fun _ => 0xFF
    acmd41Budget := 0 }

/-- A freshly constructed device (default 1 MHz transfer clock); the
constructor leaves `_sectors`, `_erase_size`, `_dbg` indeterminate, here
7, 0 and `true`. -/
def sNew : SDState := mkSDBlockDevice 1000000 7 0 true

/-- An initialized V2 standard-capacity device, as left by a successful
`init`. -/
def sInit : SDState :=
  { card_type := SDCARD_V2
    is_initialized := true
    sectors := 65536
    erase_size := 512
    block_size := 512
    init_sck := 100000
    transfer_sck := 1000000
    dbg := false
    spi_hz := 1000000 }

/-- A v1 CSD whose fields decode to `c_size = 3913`, `c_size_mult = 7`,
`read_bl_len = 9`, `ERASE_BLK_EN = 1` (scenario S2 of the spec). -/
def csdC7 : List ℕ :=
  [0x00, 0x00, 0x00, 0x00, 0x00, 0x09, 0x03, 0xD2, 0x40, 0x03, 0xC0, 0x00, 0x00, 0x00, 0x00, 0x00]

/-- C1's failing run: CMD0 answers 0x01; CMD8 answers R1 = 0x01 with a
matching 0x1AA echo; CMD59 and CMD58 (3.3 V OCR) succeed; ACMD41 is ready
at once; the second CMD58 reports CCS (high capacity); then CMD9 gets no
response at all, so `_sd_sectors` returns 0. -/
def envC1 : SDEnv :=
  { cmds := fun i =>
      if i = 0 then oR1 0x01
      else if i = 1 then oResp 0x01 0x00 0x00 0x01 0xAA
      else if i = 2 then oR1 0x01
      else if i = 3 then oResp 0x01 0x00 0x10 0x00 0x00
      else if i = 4 then oR1 0x00
      else if i = 5 then oResp 0x00 0x40 0x00 0x00 0x00
      else oR1 0xFF
    csdRead := none
    reads := fun _ => false
    writes := fun _ => 0xFF
    acmd41Budget := 0 }

/-- C2's failing run: CMD0 answers 0x01, then CMD8 answers R1 = 0x05
(idle + illegal command), which is how a v1.x card rejects CMD8. -/
def envC2 : SDEnv :=
  { cmds := fun i =>
      if i = 0 then oR1 0x01
      else if i = 1 then oR1 0x05
      else oR1 0xFF
    csdRead := none
    reads := fun _ => false
    writes := fun _ => 0xFF
    acmd41Budget := 0 }

/-- C3's run: as envC1 up to CMD58, but every ACMD41 answers 0x01 (still
idle) until the 5000 ms deadline fires after 3 polls; afterwards CMD9 and
CMD16 happen to succeed and the CSD decodes to a nonzero size. -/
def envC3cx : SDEnv :=
  { cmds := fun i =>
      if i = 0 then oR1 0x01
      else if i = 1 then oResp 0x01 0x00 0x00 0x01 0xAA
      else if i = 2 then oR1 0x01
      else if i = 3 then oResp 0x01 0x00 0x10 0x00 0x00
      else if i = 7 then oR1 0x00
      else if i = 8 then oR1 0x00
      else oR1 0x01
    csdRead := some csdC7
    reads := fun _ => false
    writes := fun _ => 0xFF
    acmd41Budget := 2 }

/-- Witness run for C3's amended statement: same prefix, and the card
answers 0x01 to every command from the ACMD41 phase on. -/
def envC3w : SDEnv :=
  { cmds := fun i =>
      if i = 0 then oR1 0x01
      else if i = 1 then oResp 0x01 0x00 0x00 0x01 0xAA
      else if i = 2 then oR1 0x01
      else if i = 3 then oResp 0x01 0x00 0x10 0x00 0x00
      else oR1 0x01
    csdRead := none
    reads := fun _ => false
    writes := fun _ => 0xFF
    acmd41Budget := 2 }

/-- C4's run: CMD24 succeeds (R1 = 0x00), the data-response token is 0x0B
(CRC error), CMD13 answers a clean R1 = 0x00. -/
def envC4 : SDEnv :=
  { cmds := fun _ => oR1 0x00
    csdRead := none
    reads := fun _ => false
    writes := fun i => if i = 0 then 0x0B else 0xFF
    acmd41Budget := 0 }

/-- C5's run: CMD18 succeeds, the first block is read, the second block's
start token never arrives, CMD12 answers a clean R1 = 0x00. -/
def envC5 : SDEnv :=
  { cmds := fun _ => oR1 0x00
    csdRead := none
    reads := fun i => i = 0
    writes := fun _ => 0xFF
    acmd41Budget := 0 }

/-- C8's run: the first byte exchanged after the packet has its MSB clear
(0x00), the next one is 0x05. -/
def rxC8 : ℕ → ℕ := fun n => if n = 0 then 0x00 else 0x05

/-! ## Claims -/

/-- Claim C1 (code_bug).  The claimed invariant — `initialized = true`
implies `card_type ∈ {V1_SC, V2_SC, V2_HC}`, `sectors > 0`,
`erase_size ≥ 512`, including immediately after any return of `init` — is
violated by the code: on a run in which `_initialise_card` succeeds but
CMD9 gets no response, `init` returns DEVICE_ERROR yet leaves
`_is_initialized = true` with `_sectors = 0` (the flag is set at line 344,
before the capacity read). -/
theorem c1_init_invariant_violated :
    (initRun sNew envC1).1 = BD_ERROR_DEVICE_ERROR ∧
    (initRun sNew envC1).2.is_initialized = true ∧
    (initRun sNew envC1).2.sectors = 0 ∧
    (initRun sNew envC1).2.card_type = SDCARD_V2HC := by
  decide

/-- Claim C2 (code_bug).  For a v1.x card — CMD8 answered with the
illegal-command R1 bit — `init` does NOT proceed past CMD8: `_cmd8`
returns ERROR_UNSUPPORTED and line 278 of `_initialise_card` propagates
it, so `init` fails with `card_type = Unknown` (the `SDCARD_V1` success
branch at lines 332-335 is unreachable). -/
theorem c2_v1_card_init_fails :
    (initRun sNew envC2).1 = SD_BLOCK_DEVICE_ERROR_UNSUPPORTED ∧
    (initRun sNew envC2).2.card_type = CARD_UNKNOWN ∧
    (initRun sNew envC2).2.is_initialized = false := by
  decide

/-- Claim C6 (code_bug).  With valid 512-aligned arguments on an
uninitialized device, `program` and `erase` return ERROR_NO_INIT (-5004)
as claimed, but `read` returns ERROR_PARAMETER (-5003) — line 487 uses the
wrong constant for the `!_is_initialized` check. -/
theorem c6_noinit_error_codes :
    programRun sNew envNone true 0 512 = SD_BLOCK_DEVICE_ERROR_NO_INIT ∧
    eraseRun sNew envNone true 0 512 = SD_BLOCK_DEVICE_ERROR_NO_INIT ∧
    readRun sNew envNone true 0 512 = SD_BLOCK_DEVICE_ERROR_PARAMETER ∧
    ¬ readRun sNew envNone true 0 512 = SD_BLOCK_DEVICE_ERROR_NO_INIT := by
  decide

/-- Claim C3, counterexample.  A run in which every ACMD41 response is
0x01 (idle) until the 5000 ms deadline: `init` does NOT return NoResponse
(-5008) — `_initialise_card` returns the last ACMD41 status, 0, and `init`
carries on; here the remaining steps succeed and `init` returns 0 with
`card_type = Unknown`. -/
theorem c3_acmd41_timeout_counterexample :
    (initRun sNew envC3cx).1 = BD_ERROR_OK ∧
    ¬ (initRun sNew envC3cx).1 = SD_BLOCK_DEVICE_ERROR_NO_RESPONSE ∧
    (initRun sNew envC3cx).2.card_type = CARD_UNKNOWN ∧
    (initRun sNew envC3cx).2.is_initialized = true := by
  decide

/-- Claim C4, counterexample.  Single-block program, CMD24 OK, data
response 0x0B (CRC error): the caller does NOT see the Write error
(-5011); line 428 overwrites it with the CMD13 status, 0 here. -/
theorem c4_write_error_counterexample :
    envC4.writes 0 &&& SPI_DATA_RESPONSE_MASK = SPI_DATA_CRC_ERROR ∧
    programRun sInit envC4 true 0 512 = 0 ∧
    ¬ programRun sInit envC4 true 0 512 = SD_BLOCK_DEVICE_ERROR_WRITE := by
  decide

/-- Claim C5, counterexample.  Two-block read, first block OK, second
block's start token times out: the caller does NOT see NoResponse (-5008);
lines 533-536 overwrite it with the CMD12 status, 0 here. -/
theorem c5_read_noresponse_counterexample :
    envC5.reads 1 = false ∧
    readRun sInit envC5 true 0 1024 = 0 ∧
    ¬ readRun sInit envC5 true 0 1024 = SD_BLOCK_DEVICE_ERROR_NO_RESPONSE := by
  decide

/-- Claim C7, counterexample.  On a v1 CSD decoding to `c_size = 3913`,
`c_size_mult = 7`, `read_bl_len = 9`, the decoder computes
(3913+1)·2^(7+2)·2^9 / 512 = 2,003,968 sectors, not the claimed
2,002,944. -/
theorem c7_csd_v1_counterexample :
    ext_bits csdC7 127 126 = 0 ∧
    ext_bits csdC7 73 62 = 3913 ∧
    ext_bits csdC7 49 47 = 7 ∧
    ext_bits csdC7 83 80 = 9 ∧
    (sdSectorsParse sInit csdC7).1 = 2003968 ∧
    ¬ (sdSectorsParse sInit csdC7).1 = 2002944 := by
  decide

/-- Claim C8, counterexample.  For CMD12 the first subsequently exchanged
byte is a stuff byte: here it is 0x00 (MSB clear), yet the adopted R1 is
the later 0x05 — the adopted response is not the first of the exchanged
bytes whose MSB is 0. -/
theorem c8_packet_counterexample :
    firstMsbClear rxC8 = some 0x00 ∧
    cmdSpiAdopted CMD12_STOP_TRANSMISSION rxC8 = 0x05 ∧
    ¬ firstMsbClear rxC8 = some (cmdSpiAdopted CMD12_STOP_TRANSMISSION rxC8) := by
  decide

/-- Claim C9, counterexample.  `frequency` stores its 64-bit argument in
the 32-bit `_transfer_sck`, so hz = 2^32 (> 25 MHz) truncates to 0: the
transceiver is given 0 Hz (not 25 MHz) and the call returns 0 (not
-EINVAL). -/
theorem c9_frequency_counterexample :
    25000000 < 2 ^ 32 ∧
    (frequencyRun sInit (2 ^ 32)).1 = 0 ∧
    (frequencyRun sInit (2 ^ 32)).2.spi_hz = 0 ∧
    ¬ (frequencyRun sInit (2 ^ 32)).1 = -22 := by
  decide

/-- Claim C9 (amended).  The requested frequency is first truncated to the
32-bit stored clock; if the truncated value is ≤ 25 MHz it is applied to
the transceiver and 0 is returned, otherwise exactly 25 MHz is applied and
stored and -EINVAL (-22) is returned.  (For hz < 2^32 this is the claim as
written.) -/
theorem c9_frequency_amended (s : SDState) (hz : ℕ) :
    (hz % 2 ^ 32 ≤ 25000000 →
      (frequencyRun s hz).1 = 0 ∧
      (frequencyRun s hz).2.spi_hz = hz % 2 ^ 32 ∧
      (frequencyRun s hz).2.transfer_sck = hz % 2 ^ 32) ∧
    (25000000 < hz % 2 ^ 32 →
      (frequencyRun s hz).1 = -22 ∧
      (frequencyRun s hz).2.spi_hz = 25000000 ∧
      (frequencyRun s hz).2.transfer_sck = 25000000) := by
  unfold frequencyRun freqRun
  dsimp only
  constructor
  · intro h
    rw [if_pos h]
    exact ⟨rfl, rfl, rfl⟩
  · intro h
    rw [if_neg (not_le.mpr h)]
    exact ⟨rfl, rfl, rfl⟩

/-- Witness for C9: `frequency(50 MHz)` applies 25 MHz and returns -EINVAL
(scenario S6), while `frequency(1 MHz)` applies 1 MHz and returns 0. -/
theorem c9_frequency_witness :
    ((frequencyRun sInit 50000000).1 = -22 ∧
     (frequencyRun sInit 50000000).2.spi_hz = 25000000 ∧
     (frequencyRun sInit 50000000).2.transfer_sck = 25000000) ∧
    ((frequencyRun sInit 1000000).1 = 0 ∧
     (frequencyRun sInit 1000000).2.spi_hz = 1000000 % 2 ^ 32 ∧
     (frequencyRun sInit 1000000).2.transfer_sck = 1000000 % 2 ^ 32) :=
  ⟨(c9_frequency_amended sInit 50000000).2 (by norm_num),
   (c9_frequency_amended sInit 1000000).1 (by norm_num)⟩

/-- Claim C4 (amended).  For a single-block program on an initialized
device with CMD24 successful and a data-response token of 0x0B or 0x0D,
the Write error is recorded but then unconditionally overwritten: the
caller receives the status of the CMD13 that follows (0 whenever CMD13's
R1 is clean), never the Write error. -/
theorem c4_write_error_amended (s : SDState) (env : SDEnv) (addr : ℕ)
    (hinit : s.is_initialized = true)
    (hbs : s.block_size = 512)
    (h24 : (cmdRun s.card_type CMD24_WRITE_BLOCK false (env.cmds 0)).status = BD_ERROR_OK)
    (_htok : env.writes 0 &&& SPI_DATA_RESPONSE_MASK = SPI_DATA_CRC_ERROR ∨
             env.writes 0 &&& SPI_DATA_RESPONSE_MASK = SPI_DATA_WRITE_ERROR) :
    programRun s env true addr 512 =
      (cmdRun s.card_type CMD13_SEND_STATUS false (env.cmds 1)).status := by
  unfold programRun
  rw [hinit, hbs]
  simp [h24]

/-- Witness for C4's amended claim at the concrete scenario-S4 run. -/
theorem c4_write_error_witness :
    programRun sInit envC4 true 0 512 =
      (cmdRun sInit.card_type CMD13_SEND_STATUS false (envC4.cmds 1)).status :=
  c4_write_error_amended sInit envC4 0 (by decide) (by decide) (by decide)
    (Or.inl (by decide))

/-- Claim C7 (amended).  For a v1 CSD whose decoded fields are
`c_size = 3913`, `c_size_mult = 7`, `read_bl_len = 9`, the decoder
computes `capacity = (c_size + 1) · 2^(c_size_mult + 2) · 2^read_bl_len`
and `sectors = capacity / 512` = 2,003,968 (the spec's figure 2,002,944
does not match its own formula). -/
theorem c7_csd_v1_amended (s : SDState) (csd : List ℕ)
    (hbs : s.block_size = 512)
    (hstruct : ext_bits csd 127 126 = 0)
    (hcs : ext_bits csd 73 62 = 3913)
    (hmult : ext_bits csd 49 47 = 7)
    (hbl : ext_bits csd 83 80 = 9) :
    (sdSectorsParse s csd).1 = 2003968 := by
  unfold sdSectorsParse
  rw [hstruct, if_pos rfl]
  rw [hcs, hmult, hbl, hbs]
  norm_num [Nat.shiftLeft_eq]

/-- Witness for C7's amended claim at the concrete CSD bytes. -/
theorem c7_csd_v1_witness : (sdSectorsParse sInit csdC7).1 = 2003968 :=
  c7_csd_v1_amended sInit csdC7 (by decide) (by decide) (by decide) (by decide)
    (by decide)

/-- If the command and the first block of the read retry loop succeed, the
loop exits at once with one block consumed. -/
theorem readRetryLoop_first_success (ct : ℕ) (env : SDEnv) (blockCnt fuel i : ℕ)
    (hc : (cmdRun ct
        (if blockCnt > 1 then CMD18_READ_MULTIPLE_BLOCK else CMD17_READ_SINGLE_BLOCK)
        false (env.cmds i)).status = BD_ERROR_OK)
    (hr : env.reads i = true) :
    readRetryLoop ct env blockCnt fuel i = ⟨BD_ERROR_OK, blockCnt - 1, i + 1, false⟩ := by
  unfold readRetryLoop
  simp [hc, hr]

/-- The block loop of `read` stops with NoResponse at the first failed
`_read`: if reads i, …, reads (i+k-1) succeed and reads (i+k) fails with
k < cnt, the loop result is (NoResponse, i + k + 1). -/
theorem readBlocksLoop_fail (reads : ℕ → Bool) :
    ∀ (k cnt i : ℕ), k < cnt →
      (∀ j, j < k → reads (i + j) = true) → reads (i + k) = false →
      readBlocksLoop reads cnt i = (SD_BLOCK_DEVICE_ERROR_NO_RESPONSE, i + k + 1) := by
  intro k
  induction k with
  | zero =>
    intro cnt i hk hb hf
    obtain ⟨c, rfl⟩ : ∃ c, cnt = c + 1 := ⟨cnt - 1, by omega⟩
    unfold readBlocksLoop
    simp only [Nat.add_zero] at hf
    rw [hf]
    simp
  | succ k ih =>
    intro cnt i hk hb hf
    obtain ⟨c, rfl⟩ : ∃ c, cnt = c + 1 := ⟨cnt - 1, by omega⟩
    unfold readBlocksLoop
    have h0 : reads i = true := by simpa using hb 0 (by omega)
    rw [h0, if_pos rfl]
    have hb2 : ∀ j, j < k → reads (i + 1 + j) = true := by
      intro j hj
      have := hb (j + 1) (by omega)
      have e : i + (j + 1) = i + 1 + j := by omega
      rwa [e] at this
    have hf2 : reads (i + 1 + k) = false := by
      have e : i + (k + 1) = i + 1 + k := by omega
      rwa [e] at hf
    rw [ih c (i + 1) (by omega) hb2 hf2]
    rw [Prod.mk.injEq]
    exact ⟨rfl, by omega⟩

/-- Claim C5 (amended).  For a multi-block read on an initialized device
where some block after the successfully read first block times out waiting
for the start token, the NoResponse status is recorded but then
unconditionally overwritten: the caller receives the status of the CMD12
that terminates the transfer (0 whenever CMD12's R1 is clean), never
NoResponse. -/
theorem c5_read_noresponse_amended (s : SDState) (env : SDEnv) (addr size k : ℕ)
    (hinit : s.is_initialized = true)
    (hbs : s.block_size = 512)
    (hn : 2 ≤ size / 512)
    (h18 : (cmdRun s.card_type CMD18_READ_MULTIPLE_BLOCK false (env.cmds 0)).status =
      BD_ERROR_OK)
    (hr0 : env.reads 0 = true)
    (hk : k < size / 512 - 1)
    (hbefore : ∀ j, j < k → env.reads (1 + j) = true)
    (hfail : env.reads (1 + k) = false) :
    readRun s env true addr size =
      (cmdRun s.card_type CMD12_STOP_TRANSMISSION false (env.cmds (k + 2))).status := by
  have hgt : size / 512 > 1 := by omega
  have hsz : 512 < size := by
    have h := (Nat.le_div_iff_mul_le (by norm_num : 0 < 512)).mp hn
    omega
  unfold readRun
  rw [hinit, hbs]
  have hcmd : (cmdRun s.card_type
      (if size / 512 > 1 then CMD18_READ_MULTIPLE_BLOCK else CMD17_READ_SINGLE_BLOCK)
      false (env.cmds 0)).status = BD_ERROR_OK := by
    rw [if_pos hgt]
    exact h18
  have hrl := readRetryLoop_first_success s.card_type env (size / 512) 2 0 hcmd hr0
  have hbl := readBlocksLoop_fail env.reads k (size / 512 - 1) 1 hk hbefore hfail
  have e : 1 + k + 1 = k + 2 := by omega
  simp only [Bool.not_true, Bool.false_eq_true, if_false, hrl, hbl, e, hsz, if_true]

/-- Witness for C5's amended claim: two blocks, the second times out. -/
theorem c5_read_noresponse_witness :
    readRun sInit envC5 true 0 1024 =
      (cmdRun sInit.card_type CMD12_STOP_TRANSMISSION false (envC5.cmds 2)).status :=
  c5_read_noresponse_amended sInit envC5 0 1024 0 (by decide) (by decide) (by norm_num)
    (by decide) (by decide) (by norm_num)
    (fun j hj => absurd hj (Nat.not_lt_zero j)) (by decide)

/-- Masking with 0xFF keeps the low 8 bits. -/
theorem land_255_eq_mod (a : ℕ) : a &&& 255 = a % 256 := by
  have h := Nat.and_pow_two_sub_one_eq_mod a 8
  norm_num at h
  exact h

/-- The R1 poll adopts the byte at offset k when the k preceding bytes all
have their MSB set, the byte at k has it clear, and k is within the fuel. -/
theorem r1Poll_first (rx : ℕ → ℕ) :
    ∀ (k fuel i : ℕ), k ≤ fuel →
      (∀ j, j < k → rx (i + j) &&& 0x80 ≠ 0) → rx (i + k) &&& 0x80 = 0 →
      r1Poll rx fuel i = rx (i + k) := by
  intro k
  induction k with
  | zero =>
    intro fuel i _ _ hhit
    simp only [Nat.add_zero] at hhit
    match fuel with
    | 0 => rfl
    | f + 1 =>
      unfold r1Poll
      simp [R1_RESPONSE_RECV, hhit]
  | succ k ih =>
    intro fuel i hk hb hhit
    obtain ⟨f, rfl⟩ : ∃ f, fuel = f + 1 := ⟨fuel - 1, by omega⟩
    unfold r1Poll
    have h0 : rx i &&& 0x80 ≠ 0 := by simpa using hb 0 (by omega)
    simp only [R1_RESPONSE_RECV]
    rw [if_neg h0]
    have hb2 : ∀ j, j < k → rx (i + 1 + j) &&& 0x80 ≠ 0 := by
      intro j hj
      have := hb (j + 1) (by omega)
      have e : i + (j + 1) = i + 1 + j := by omega
      rwa [e] at this
    have hhit2 : rx (i + 1 + k) &&& 0x80 = 0 := by
      have e : i + (k + 1) = i + 1 + k := by omega
      rwa [e] at hhit
    rw [ih f (i + 1) (by omega) hb2 hhit2]
    have e : i + 1 + k = i + (k + 1) := by omega
    rw [e]

/-- Claim C8 (amended).  For every opcode 0-63 the emitted packet is
exactly the 6 bytes `0x40 | (op & 0x3F)`, the argument MSB first, and the
trailer 0x95 / 0x87 / 0xFF for CMD0 / CMD8 / the rest; the adopted R1 is
the first of at most 16 polled bytes whose MSB is 0 — except that for
CMD12 one stuff byte is exchanged and discarded first, so the poll applies
to the bytes after it. -/
theorem c8_packet_amended (op arg k : ℕ) (rx : ℕ → ℕ)
    (_hop : op < 64) (hk : k < 16)
    (hbefore : ∀ j, j < k → pollStream op rx j &&& 0x80 ≠ 0)
    (hhit : pollStream op rx k &&& 0x80 = 0) :
    cmdPacket op arg =
      [0x40 ||| (op &&& 0x3F),
       arg / 2 ^ 24 % 256, arg / 2 ^ 16 % 256, arg / 2 ^ 8 % 256, arg % 256,
       if op = 0 then 0x95 else if op = 8 then 0x87 else 0xFF] ∧
    cmdSpiAdopted op rx = pollStream op rx k := by
  constructor
  · unfold cmdPacket SPI_CMD_byte crcTrailer
    simp only [Nat.shiftRight_eq_div_pow, land_255_eq_mod,
      CMD0_GO_IDLE_STATE, CMD8_SEND_IF_COND]
  · unfold cmdSpiAdopted
    simp only [pollStream] at hbefore hhit ⊢
    by_cases h12 : op = CMD12_STOP_TRANSMISSION
    · simp only [if_pos h12] at hbefore hhit ⊢
      have := r1Poll_first (fun n => rx (n + 1)) k 15 0 (by omega)
        (fun j hj => by simpa using hbefore j hj) (by simpa using hhit)
      simpa using this
    · simp only [if_neg h12] at hbefore hhit ⊢
      have := r1Poll_first rx k 15 0 (by omega)
        (fun j hj => by simpa using hbefore j hj) (by simpa using hhit)
      simpa using this

/-- Witness for C8's amended claim: CMD17 with the card answering 0x00 at
once. -/
theorem c8_packet_witness :
    cmdPacket 17 0x12345678 =
      [0x40 ||| (17 &&& 0x3F),
       0x12345678 / 2 ^ 24 % 256, 0x12345678 / 2 ^ 16 % 256,
       0x12345678 / 2 ^ 8 % 256, 0x12345678 % 256,
       if 17 = 0 then 0x95 else if 17 = 8 then 0x87 else 0xFF] ∧
    cmdSpiAdopted 17 (fun _ => 0x00) = pollStream 17 (fun _ => 0x00) 0 :=
  c8_packet_amended 17 0x12345678 0 (fun _ => 0x00) (by norm_num) (by norm_num)
    (fun j hj => absurd hj (Nat.not_lt_zero j)) (by decide)

/-- If every ACMD41 from index i on answers a clean idle 0x01, the ACMD41
loop spins until its deadline budget is exhausted and exits with status 0
and response 0x01. -/
theorem acmd41Loop_all_idle (ct : ℕ) (env : ℕ → CmdOracle) (arg : ℕ) :
    ∀ (B i : ℕ),
      (∀ j, i ≤ j →
        (cmdRun ct ACMD41_SD_SEND_OP_COND true (env j)).resp = 0x01 ∧
        (cmdRun ct ACMD41_SD_SEND_OP_COND true (env j)).status = BD_ERROR_OK) →
      acmd41Loop ct env arg B i = (BD_ERROR_OK, 0x01, i + (B + 1)) := by
  intro B
  induction B with
  | zero =>
    intro i h
    unfold acmd41Loop
    have h1 := (h i le_rfl).1
    have h2 := (h i le_rfl).2
    simp [h1, h2, R1_IDLE_STATE]
  | succ B ih =>
    intro i h
    unfold acmd41Loop
    have h1 := (h i le_rfl).1
    simp only [h1, R1_IDLE_STATE]
    norm_num
    rw [ih (i + 1) (fun j hj => h j (by omega))]
    simp only [Prod.mk.injEq, true_and]
    omega

/-- Claim C3 (amended).  When every ACMD41 response is the plain idle byte
0x01 until the 5000 ms deadline fires (and the earlier CMD0/CMD8/CMD58
steps succeeded), `_initialise_card` sets `card_type = Unknown` but
returns the status of the last ACMD41 — BD_ERROR_OK — so `init` proceeds
to the capacity-read step instead of returning NoResponse. -/
theorem c3_acmd41_timeout_amended (s : SDState) (env : ℕ → CmdOracle) (B : ℕ)
    (h0 : goIdleState s.card_type env 0 = (R1_IDLE_STATE, 1))
    (h8 : cmd8Run s.card_type (env 1) = (BD_ERROR_OK, SDCARD_V2))
    (h58 : (cmdRun SDCARD_V2 CMD58_READ_OCR false (env 3)).status = BD_ERROR_OK)
    (h58v : ¬ (cmdRun SDCARD_V2 CMD58_READ_OCR false (env 3)).resp &&& OCR_3_3V = 0)
    (hidle : ∀ j, 4 ≤ j →
      (cmdRun SDCARD_V2 ACMD41_SD_SEND_OP_COND true (env j)).resp = 0x01 ∧
      (cmdRun SDCARD_V2 ACMD41_SD_SEND_OP_COND true (env j)).status = BD_ERROR_OK) :
    (initialiseCard s env B).1 = BD_ERROR_OK ∧
    (initialiseCard s env B).2.1.card_type = CARD_UNKNOWN := by
  have ha := acmd41Loop_all_idle SDCARD_V2 env OCR_HCS_CCS B 4 (fun j hj => hidle j hj)
  unfold initialiseCard
  simp [h0, h8, h58, h58v, ha]

/-- Witness for C3's amended claim at the concrete all-idle run. -/
theorem c3_acmd41_timeout_witness :
    (initialiseCard sNew envC3w.cmds 2).1 = BD_ERROR_OK ∧
    (initialiseCard sNew envC3w.cmds 2).2.1.card_type = CARD_UNKNOWN := by
  apply c3_acmd41_timeout_amended sNew envC3w.cmds 2 (by decide) (by decide) (by decide)
    (by decide)
  intro j hj
  have hc : envC3w.cmds j = oR1 0x01 := by
    simp only [envC3w]
    rw [if_neg (by omega : ¬ j = 0), if_neg (by omega : ¬ j = 1),
        if_neg (by omega : ¬ j = 2), if_neg (by omega : ¬ j = 3)]
  rw [hc]
  exact ⟨by decide, by decide⟩

/-- The CSD parse only touches `erase_size`; the debug flag is unchanged. -/
theorem sdSectorsParse_dbg (s : SDState) (csd : List ℕ) :
    (sdSectorsParse s csd).2.dbg = s.dbg := by
  simp only [sdSectorsParse]
  split_ifs <;> rfl

/-- `_sd_sectors` never touches the debug flag. -/
theorem sdSectorsRun_dbg (s : SDState) (env : SDEnv) (i : ℕ) :
    (sdSectorsRun s env i).2.1.dbg = s.dbg := by
  simp only [sdSectorsRun]
  split
  · rfl
  · cases env.csdRead with
    | none => rfl
    | some csd => exact sdSectorsParse_dbg s csd

/-- `_freq` never touches the debug flag. -/
theorem freqRun_dbg (s : SDState) : (freqRun s).2.dbg = s.dbg := by
  unfold freqRun
  split_ifs <;> rfl

/-- `_initialise_card` sets the debug flag to false at entry (line 264)
and nothing later in it writes the flag. -/
theorem initialiseCard_dbg (s : SDState) (env : ℕ → CmdOracle) (B : ℕ) :
    (initialiseCard s env B).2.1.dbg = false := by
  simp only [initialiseCard]
  split_ifs <;> rfl

/-- After any return of `init`, the debug flag is false. -/
theorem initRun_dbg (s : SDState) (env : SDEnv) : (initRun s env).2.dbg = false := by
  simp only [initRun]
  split_ifs <;>
    simp [initialiseCard_dbg, sdSectorsRun_dbg, freqRun_dbg]

/-- Claim C10 (confirmed).  `debug` changes no device-state field other
than the runtime debug flag, and every call to `init` unconditionally
resets that flag to the compile-time default (disabled, since SD_DBG = 0),
so a `debug(true)` issued before `init` does not survive the call. -/
theorem c10_debug_flag_reset (s : SDState) (env : SDEnv) (b : Bool) :
    (debugRun s b).dbg = b ∧
    (debugRun s b).card_type = s.card_type ∧
    (debugRun s b).is_initialized = s.is_initialized ∧
    (debugRun s b).sectors = s.sectors ∧
    (debugRun s b).erase_size = s.erase_size ∧
    (debugRun s b).block_size = s.block_size ∧
    (debugRun s b).init_sck = s.init_sck ∧
    (debugRun s b).transfer_sck = s.transfer_sck ∧
    (debugRun s b).spi_hz = s.spi_hz ∧
    (initRun (debugRun s true) env).2.dbg = false :=
  ⟨rfl, rfl, rfl, rfl, rfl, rfl, rfl, rfl, rfl, initRun_dbg (debugRun s true) env⟩
